import Mathlib

/-!
Verification of the precedent retrieval and ranking engine of
`src/retriever.py` (class `TurkishLegalRetriever`).

Modelling conventions:
* Python strings are lists of Unicode characters (`Str := List Char`).
* Python floats are exact rationals (`ℚ`).
* The LLM, the FAISS index, the embedding model and the SQLite decision store
  are external collaborators; they enter the model as oracle fields of `Env`.
* Fallible Python code (`try`/`except`, `IndexError`, `TypeError`, missing
  rows) is modelled with `Option`: `none` means the candidate is skipped,
  exactly as the `except ...: continue` handlers do.
* The raw-FAISS-score calibration (lines 286-288) applies `np.exp`, which is
  transcendental; the calibrated semantic score is therefore an opaque
  rational oracle (`Env.semScore`).  No claim depends on its value.
-/

namespace Davadostum

/-- Python strings are modelled as lists of Unicode characters. -/
abbrev Str := List Char

/-- Python `str.lower` on one character: ASCII plus the uppercase Turkish
letters occurring in the vocabularies of the repository.  (CPython maps the dotted
capital İ to the two-codepoint sequence i-combining-dot; that corner is
modelled as a plain i — no vocabulary entry or claim depends on it.) -/
def pyLowerChar (c : Char) : Char :=
  if c = 'Ç' then 'ç'
  else if c = 'Ğ' then 'ğ'
  else if c = 'İ' then 'i'
  else if c = 'Ö' then 'ö'
  else if c = 'Ş' then 'ş'
  else if c = 'Ü' then 'ü'
  else c.toLower

/-- Python `str.lower`. -/
def pyLower (s : Str) : Str := s.map pyLowerChar

/-- Python substring membership `needle in hay`. -/
def pyIn (needle hay : Str) : Bool :=
  (List.range (hay.length + 1)).any fun i => (hay.drop i).take needle.length == needle

/-- Python `str.strip()`: drop whitespace from both ends. -/
def pyStrip (s : Str) : Str :=
  ((s.dropWhile Char.isWhitespace).reverse.dropWhile Char.isWhitespace).reverse

/-- Worker for `pySplitWs`; `acc` is the reversed word in progress. -/
def pySplitWsGo (acc : Str) : Str → List Str
  | [] => if acc = [] then [] else [acc.reverse]
  | c :: cs =>
    if c.isWhitespace then
      if acc = [] then pySplitWsGo [] cs else acc.reverse :: pySplitWsGo [] cs
    else pySplitWsGo (c :: acc) cs

/-- Python `str.split()` with no separator: split on whitespace runs, dropping
empty pieces. -/
def pySplitWs (s : Str) : List Str := pySplitWsGo [] s

/-- Index of the first occurrence of `needle` in `hay`, if any. -/
def findSub (hay needle : Str) : Option Nat :=
  (List.range (hay.length + 1)).find? fun i => (hay.drop i).take needle.length == needle

/-- Fuelled worker for `pySplit`. -/
def pySplitGo (sep : Str) : Nat → Str → List Str
  | 0, hay => [hay]
  | fuel + 1, hay =>
    match findSub hay sep with
    | none => [hay]
    | some i => hay.take i :: pySplitGo sep fuel (hay.drop (i + sep.length))

/-- Python `str.split(sep)` for a non-empty separator: non-overlapping
left-to-right split that keeps empty pieces.  Fuel `hay.length + 1` suffices
since every recursive step consumes at least `sep.length ≥ 1` characters.
(Python raises on an empty separator; the total model returns the whole
string, a case never reached here.) -/
def pySplit (sep hay : Str) : List Str :=
  if sep = [] then [hay] else pySplitGo sep (hay.length + 1) hay

/-- Python list indexing `xs[i]`: non-negative indices from the front,
negative indices from the back, `none` for the out-of-range `IndexError`. -/
def pyIndex (l : List α) (i : Int) : Option α :=
  if 0 ≤ i then l.get? i.toNat
  else if 0 ≤ (l.length : Int) + i then l.get? ((l.length : Int) + i).toNat
  else none

/-- Python `a or b` for an optional string: `None` and `""` are falsy. -/
def pyOr (a : Option Str) (b : Str) : Str :=
  match a with
  | none => b
  | some s => if s = [] then b else s

/-- Vocabulary `positive_outcomes` of `_load_benefit_keywords` (lines 50-54). -/
def positiveOutcomes : List Str :=
  (["kabul", "uygun", "doğru", "geçerli", "haklı", "yerinde", "onaylandı",
    "desteklendi", "kabul edildi", "uygun bulundu", "doğru bulundu",
    "hukuka uygun", "adil", "hakkaniyetli", "memnuniyet verici"]).map fun s => s.toList

/-- Vocabulary `legal_principles` of `_load_benefit_keywords` (lines 55-58). -/
def legalPrinciples : List Str :=
  (["prensip", "kural", "esas", "hukuki", "yasal", "mevzuat", "kanun",
    "yönetmelik", "tüzük", "anayasa", "temel hak", "insan hakları"]).map fun s => s.toList

/-- Vocabulary `court_hierarchy` of `_load_benefit_keywords` (lines 59-62). -/
def courtHierarchy : List Str :=
  (["yargıtay", "danıştay", "anayasa mahkemesi", "genel kurul",
    "büyük genel kurul", "hukuk genel kurul", "ceza genel kurul"]).map fun s => s.toList

/-- Model of `_keyword_match_score` (lines 157-169): fraction of keywords that
occur as a case-insensitive substring of the decision text. -/
def keywordMatchScore (decision_text : Str) (keywords : List Str) : ℚ :=
  if keywords = [] then 0
  else
    let text_lower := pyLower decision_text
    ((keywords.countP fun k => pyIn (pyLower k) text_lower : Nat) : ℚ) / (keywords.length : ℚ)

/-- Court-hierarchy bonus of `_calculate_benefit_score` (lines 238-245): the
`for ... break` loop fires at most once, on the first vocabulary term contained
in the lowered court string. -/
def hierarchyBonus (court_lower : Str) : ℚ :=
  match courtHierarchy.find? (fun k => pyIn k court_lower) with
  | some _ =>
    if pyIn ("genel kurul".toList) court_lower || pyIn ("anayasa".toList) court_lower then 0.3
    else if pyIn ("yargıtay".toList) court_lower || pyIn ("danıştay".toList) court_lower then 0.2
    else 0
  | none => 0

/-- Recency bonus of `_calculate_benefit_score` (lines 247-249), checked on the
raw (un-lowered) court string. -/
def recencyBonus (court_info : Str) : ℚ :=
  if pyIn ("2023".toList) court_info || pyIn ("2024".toList) court_info then 0.1 else 0

/-- Model of `_calculate_benefit_score` (lines 221-251).  `court_info` comes
straight from the decision-store row and may be SQL NULL (`none`); the Python
membership test of the recency bonus then raises `TypeError`, which the `except`
handler of the caller
swallows by dropping the candidate — modelled as result `none`. -/
def calculateBenefitScore (decision_text : Str) (court_info : Option Str) : Option ℚ :=
  match court_info with
  | none => none
  | some court =>
    let text_lower := pyLower decision_text
    let positive_count := positiveOutcomes.countP fun k => pyIn k text_lower
    let principle_count := legalPrinciples.countP fun k => pyIn k text_lower
    some (min ((positive_count : ℚ) * 0.1 + (principle_count : ℚ) * 0.05
      + hierarchyBonus (pyLower court) + recencyBonus court) 1)

/-- C7: the benefit score is the additive model — +0.1 per matched
positive-outcome term and +0.05 per matched legal-principle term in the
decision text, a court-hierarchy bonus evaluated once with first match winning
(0.3 on a supreme-assembly/constitutional marker, else 0.2 on a top-court
marker), +0.1 when the court string contains "2023" or "2024" — clamped into
[0, 1]; and a court string containing "Yargıtay Hukuk Genel Kurulu" with a
decision text carrying no other cues scores exactly 0.3. -/
theorem C7_benefit_score_model :
    (∀ (text court : Str) (b : ℚ),
      calculateBenefitScore text (some court) = some b →
      b = min (((positiveOutcomes.countP fun k => pyIn k (pyLower text) : Nat) : ℚ) * 0.1
          + ((legalPrinciples.countP fun k => pyIn k (pyLower text) : Nat) : ℚ) * 0.05
          + hierarchyBonus (pyLower court) + recencyBonus court) 1
        ∧ 0 ≤ b ∧ b ≤ 1)
    ∧ calculateBenefitScore [] (some ("Yargıtay Hukuk Genel Kurulu".toList)) = some 0.3 := by
  constructor
  · intro text court b hb
    simp only [calculateBenefitScore, Option.some_inj] at hb
    subst hb
    refine ⟨rfl, ?_, min_le_right _ _⟩
    have hpos : (0 : ℚ) ≤ ((positiveOutcomes.countP fun k => pyIn k (pyLower text) : Nat) : ℚ) * 0.1 := by
      positivity
    have hprin : (0 : ℚ) ≤ ((legalPrinciples.countP fun k => pyIn k (pyLower text) : Nat) : ℚ) * 0.05 := by
      positivity
    have hhier : (0 : ℚ) ≤ hierarchyBonus (pyLower court) := by
      unfold hierarchyBonus
      split
      · split
        · norm_num
        · split
          · norm_num
          · norm_num
      · norm_num
    have hrec : (0 : ℚ) ≤ recencyBonus court := by
      unfold recencyBonus
      split
      · norm_num
      · norm_num
    have h1 : (0 : ℚ) ≤ 1 := by norm_num
    exact le_min (by linarith) h1
  · with_unfolding_all rfl

/-- Witness for C7 at the 0.3 instance. -/
theorem C7_benefit_score_model_witness :
    (0.3 : ℚ) = min (((positiveOutcomes.countP fun k => pyIn k (pyLower [])
          : Nat) : ℚ) * 0.1
        + ((legalPrinciples.countP fun k => pyIn k (pyLower []) : Nat) : ℚ) * 0.05
        + hierarchyBonus (pyLower ("Yargıtay Hukuk Genel Kurulu".toList))
        + recencyBonus ("Yargıtay Hukuk Genel Kurulu".toList)) 1
      ∧ (0 : ℚ) ≤ 0.3 ∧ (0.3 : ℚ) ≤ 1 :=
  C7_benefit_score_model.1 [] ("Yargıtay Hukuk Genel Kurulu".toList) 0.3
    (by with_unfolding_all rfl)

/-- C8: the lexical scorer returns 0 on an empty keyword list, otherwise the
fraction of keywords occurring as case-insensitive substrings of the decision
text, a value in [0, 1]; on the example of the spec it returns 0.5. -/
theorem C8_keyword_match_score :
    (∀ text : Str, keywordMatchScore text [] = 0)
    ∧ (∀ (text : Str) (kws : List Str), kws ≠ [] →
        keywordMatchScore text kws =
          ((kws.countP fun k => pyIn (pyLower k) (pyLower text) : Nat) : ℚ) / (kws.length : ℚ)
        ∧ 0 ≤ keywordMatchScore text kws ∧ keywordMatchScore text kws ≤ 1)
    ∧ keywordMatchScore ("Taraflar arasındaki boşanma ve nafaka davası".toList)
        ((["boşanma", "velayet"]).map fun s => s.toList) = 0.5 := by
  refine ⟨fun text => rfl, fun text kws h => ?_, by with_unfolding_all rfl⟩
  have hlen : 0 < kws.length := List.length_pos.mpr h
  have hlenq : (0 : ℚ) < (kws.length : ℚ) := by exact_mod_cast hlen
  have hcount : ((kws.countP fun k => pyIn (pyLower k) (pyLower text) : Nat) : ℚ)
      ≤ (kws.length : ℚ) := by
    exact_mod_cast List.countP_le_length _
  constructor
  · simp only [keywordMatchScore, if_neg h]
  · constructor
    · simp only [keywordMatchScore, if_neg h]
      positivity
    · simp only [keywordMatchScore, if_neg h]
      rw [div_le_one hlenq]
      exact hcount

/-- One per-query entry of `self._cached_analyses`: a Python dict that may
hold the "keywords" field and/or the four intent fields. -/
structure AnalysisEntry where
  keywords : Option (List Str)
  case_type : Option Str
  main_topic : Option Str
  search_terms : Option (List Str)
  is_criminal : Option Bool
deriving DecidableEq

def emptyEntry : AnalysisEntry :=
  { keywords := none, case_type := none, main_topic := none,
    search_terms := none, is_criminal := none }

/-- The state `self._cached_analyses`, keyed by the exact raw query string. -/
abbrev Cache := List (Str × AnalysisEntry)

/-- Python `query in cache` / `cache[query]`. -/
def cacheFind (c : Cache) (q : Str) : Option AnalysisEntry :=
  (c.find? fun p => p.1 == q).map fun p => p.2

/-- Python `if q not in cache: cache[q] = {}` followed by a field update. -/
def cacheUpdate (c : Cache) (q : Str) (f : AnalysisEntry → AnalysisEntry) : Cache :=
  match cacheFind c q with
  | some _ => c.map fun p => if p.1 = q then (p.1, f p.2) else p
  | none => c ++ [(q, f emptyEntry)]

/-- The intent dictionary built by `_extract_case_intent` (lines 191-196). -/
structure CaseIntent where
  case_type : Str
  main_topic : Str
  search_terms : List Str
  is_criminal : Bool
deriving DecidableEq

def defaultIntent : CaseIntent :=
  { case_type := "Genel".toList, main_topic := [], search_terms := [],
    is_criminal := false }

/-- One entry of the `data/meta.json` metadata sequence. -/
structure MetaEntry where
  id : Str
  snippet : Str
deriving DecidableEq

/-- One row of the `decisions` table; every column may be SQL NULL. -/
structure DbRow where
  daire : Option Str
  esas : Option Str
  karar : Option Str
  tarih : Option Str
  raw_text : Option Str
deriving DecidableEq

/-- Oracles for the external collaborators of the engine. -/
structure Env where
  /-- Model of `_call_mistral_minimal`: the already-stripped completion, empty on failure. -/
  llm : Str → Str
  /-- FAISS ids `indices[0]` for the embedded enhanced query, in rank order. -/
  retrieve : Str → List Int
  /-- Calibrated semantic score at enumerate position `i` (lines 286-288);
  kept opaque because the calibration applies the transcendental `np.exp`. -/
  semScore : Str → Nat → ℚ
  /-- The positionally aligned metadata sequence `self.meta`. -/
  meta : List MetaEntry
  /-- Point lookup in the decision store; `none` covers both a missing row and
  a connection failure, each of which makes the caller skip the candidate. -/
  db : Str → Option DbRow

/-- Prompt of `_extract_search_keywords` (lines 100-112). -/
def keywordsPrompt (q : Str) : Str :=
  ("\nSen Türk hukuk uzmanısın. Bu dava açıklamasından arama için önemli keywordleri çıkar:\n\n\"".toList)
  ++ q ++
  ("\"\n\nSadece şu formatta yanıtla:\nKEYWORDS: [virgülle ayrılmış 5-8 önemli hukuki terim]\n\nÖrnek:\nKEYWORDS: nafaka, boşanma, velayet, tazminat, aile hukuku\nKEYWORDS: kasten öldürme, meşru müdafaa, ceza hukuku, savunma\nKEYWORDS: iş kazası, tazminat, işveren sorumluluğu, güvenlik önlemi\n".toList)

/-- Keyword parsing of `_extract_search_keywords` (lines 117-123): locate the
"KEYWORDS:" marker, take the text after the first occurrence, comma-split and
trim each token.  The `none` branch of the segment lookup models the
`except: pass` (keywords stay empty); it is unreachable because a contained
marker always produces at least two segments. -/
def parseKeywords (response : Str) : List Str :=
  if pyIn ("KEYWORDS:".toList) response then
    match (pySplit ("KEYWORDS:".toList) response).get? 1 with
    | some seg => (pySplit (",".toList) (pyStrip seg)).map pyStrip
    | none => []
  else []

/-- Fallback tier 1 vocabulary `legal_terms` (lines 128-133). -/
def legalTerms : List Str :=
  (["nafaka", "boşanma", "velayet", "tazminat", "aile", "evlilik", "eş",
    "kasten", "öldürme", "yaralama", "meşru müdafaa", "ceza", "hapis",
    "iş kazası", "işveren", "güvenlik", "sorumluluk", "borç", "alacak",
    "sözleşme", "miras", "taşınmaz", "mülkiyet", "hırsızlık",
    "dolandırıcılık"]).map fun s => s.toList

/-- Fallback tier 2 vocabulary `important_words` (line 140). -/
def importantWords : List Str :=
  (["nafaka", "boşanma", "dava", "karar", "emsal", "miktar", "konu"]).map fun s => s.toList

/-- Stop words `common_words` of fallback tier 3 (line 147). -/
def commonWords : List Str :=
  (["ve", "ile", "için", "konusunda", "arasında", "hakkında", "davası",
    "karar", "emsal", "arıyorum", "bul", "istiyorum"]).map fun s => s.toList

/-- Three-tier deterministic fallback of `_extract_search_keywords`
(lines 126-148): legal-term intersection, then generic-word intersection, then
the first five query tokens that are neither stop words nor of length ≤ 3. -/
def fallbackKeywords (query : Str) : List Str :=
  let query_lower := pyLower query
  let tier1 := legalTerms.filter fun t => pyIn t query_lower
  if tier1 = [] then
    let tier2 := importantWords.filter fun w => pyIn w query_lower
    if tier2 = [] then
      ((pySplitWs query_lower).filter fun w =>
        !(commonWords.contains w) && decide (3 < w.length)).take 5
    else tier2
  else tier1

/-- Model of `_extract_search_keywords` (lines 94-155).  Note the cache test:
any entry for the query — even one created by intent extraction and carrying
no "keywords" field — short-circuits with `entry.get("keywords", [])`. -/
def extractSearchKeywords (env : Env) (c : Cache) (query : Str) : List Str × Cache :=
  match cacheFind c query with
  | some e => (e.keywords.getD [], c)
  | none =>
    let response := env.llm (keywordsPrompt query)
    let parsed := parseKeywords response
    let keywords := if parsed = [] then fallbackKeywords query else parsed
    (keywords, cacheUpdate c query fun e => { e with keywords := some keywords })

/-- Prompt of `_extract_case_intent` (lines 177-186). -/
def intentPrompt (q : Str) : Str :=
  ("\nSen Türk hukuk uzmanısın. Bu davayı analiz et:\n\n\"".toList) ++ q ++
  ("\"\n\nSadece şu bilgileri ver:\n1. Dava türü: [Ceza/Aile/Medeni/İş/İdari]\n2. Ana konu: [Tek cümle]\n3. Arama terimleri: [3-5 kelime, virgülle ayrılmış]\n".toList)

/-- Marker line "Dava türü:" of the intent prompt answer. -/
def davaMarker : Str := "Dava türü:".toList

/-- Marker line "Ana konu:" of the intent prompt answer. -/
def anaMarker : Str := "Ana konu:".toList

/-- Marker line "Arama terimleri:" of the intent prompt answer. -/
def aramaMarker : Str := "Arama terimleri:".toList

/-- One iteration of the intent-parsing loop (lines 200-209).  The `[1]`
segment access is safe whenever a marker matched, since every marker contains
a colon; `getD []` covers the unreachable branch. -/
def parseIntentLine (intent : CaseIntent) (line : Str) : CaseIntent :=
  if pyIn davaMarker line then
    let ct := pyStrip (((pySplit (":".toList) line).get? 1).getD [])
    { intent with case_type := ct, is_criminal := pyIn ("Ceza".toList) ct }
  else if pyIn anaMarker line then
    { intent with main_topic := pyStrip (((pySplit (":".toList) line).get? 1).getD []) }
  else if pyIn aramaMarker line then
    let terms := pyStrip (((pySplit (":".toList) line).get? 1).getD [])
    { intent with search_terms := (pySplit (",".toList) terms).map pyStrip }
  else intent

/-- Intent parsing of `_extract_case_intent` (lines 190-213).  No operation in
the loop can raise on a marker-matched line, so the `except` fallback
(`search_terms = query.split()[:5]`) is dead code and the parse is total. -/
def parseIntent (response : Str) : CaseIntent :=
  (pySplit ("\n".toList) response).foldl parseIntentLine defaultIntent

/-- Cache test of `_extract_case_intent` (line 174): the query key must be
present AND carry the "case_type" field. -/
def intentCacheHit (c : Cache) (q : Str) : Bool :=
  match cacheFind c q with
  | some e => e.case_type.isSome
  | none => false

/-- Intent view of a cache entry, as returned on a hit.  Whenever "case_type"
was cached, the other three fields were written by the same `update(intent)`,
so the `getD` defaults are unreachable. -/
def entryIntent (e : AnalysisEntry) : CaseIntent :=
  { case_type := e.case_type.getD [], main_topic := e.main_topic.getD [],
    search_terms := e.search_terms.getD [], is_criminal := e.is_criminal.getD false }

/-- Cache write of `_extract_case_intent` (lines 214-217):
`cache[query].update(intent)` on a freshly created entry if needed. -/
def cacheWriteIntent (c : Cache) (q : Str) (it : CaseIntent) : Cache :=
  cacheUpdate c q fun e =>
    { e with case_type := some it.case_type, main_topic := some it.main_topic,
             search_terms := some it.search_terms, is_criminal := some it.is_criminal }

/-- Model of `_extract_case_intent` (lines 171-219). -/
def extractCaseIntent (env : Env) (c : Cache) (query : Str) : CaseIntent × Cache :=
  if intentCacheHit c query then (entryIntent ((cacheFind c query).getD emptyEntry), c)
  else
    let it := parseIntent (env.llm (intentPrompt query))
    (it, cacheWriteIntent c query it)

/-- Enhanced query of `_search_beneficial_decisions` (line 261):
the query, one space, and the space-joined search terms. -/
def enhancedQuery (query : Str) (search_terms : List Str) : Str :=
  query ++ (" ".toList) ++ List.intercalate (" ".toList) search_terms

theorem pySplitGo_ne_nil (sep : Str) (fuel : Nat) (hay : Str) :
    pySplitGo sep fuel hay ≠ [] := by
  cases fuel with
  | zero => simp [pySplitGo]
  | succ n =>
    simp only [pySplitGo]
    cases findSub hay sep with
    | none => simp
    | some i => simp

theorem pySplit_ne_nil (sep hay : Str) : pySplit sep hay ≠ [] := by
  unfold pySplit
  split
  · simp
  · exact pySplitGo_ne_nil sep _ hay

theorem pySplit_get_one_of_pyIn {sep hay : Str} (hsep : sep ≠ [])
    (h : pyIn sep hay = true) : ∃ seg, (pySplit sep hay).get? 1 = some seg := by
  have hfind : ∃ i, findSub hay sep = some i := by
    unfold pyIn at h
    obtain ⟨x, hx, hp⟩ := List.any_eq_true.mp h
    have : (findSub hay sep).isSome := by
      unfold findSub
      exact List.find?_isSome.mpr ⟨x, hx, hp⟩
    exact Option.isSome_iff_exists.mp this
  obtain ⟨i, hi⟩ := hfind
  unfold pySplit
  rw [if_neg hsep]
  cases hl : hay.length + 1 with
  | zero => omega
  | succ n =>
    simp only [pySplitGo, hi]
    cases hrest : pySplitGo sep n (hay.drop (i + sep.length)) with
    | nil => exact absurd hrest (pySplitGo_ne_nil sep n _)
    | cons a l => exact ⟨a, rfl⟩

theorem parseKeywords_ne_nil_of_marker {response : Str}
    (h : pyIn ("KEYWORDS:".toList) response = true) : parseKeywords response ≠ [] := by
  unfold parseKeywords
  rw [if_pos h]
  obtain ⟨seg, hseg⟩ := pySplit_get_one_of_pyIn (by decide) h
  rw [hseg]
  simp only [ne_eq, List.map_eq_nil_iff]
  exact pySplit_ne_nil _ _

theorem fallbackKeywords_ne_nil {query : Str}
    (htok : (pySplitWs (pyLower query)).filter
      (fun w => !(commonWords.contains w) && decide (3 < w.length)) ≠ []) :
    fallbackKeywords query ≠ [] := by
  unfold fallbackKeywords
  by_cases h1 : legalTerms.filter (fun t => pyIn t (pyLower query)) = []
  · rw [if_pos h1]
    by_cases h2 : importantWords.filter (fun w => pyIn w (pyLower query)) = []
    · rw [if_pos h2]
      cases hl : (pySplitWs (pyLower query)).filter
          (fun w => !(commonWords.contains w) && decide (3 < w.length)) with
      | nil => exact absurd hl htok
      | cons a l => simp [List.take]
    · rw [if_neg h2]
      exact h2
  · rw [if_neg h1]
    exact h1

/-- C3: for every query that is non-trivial — it has at least one token that
survives the stop-word and length-greater-than-3 filters — keyword extraction
(computing afresh, no cache entry) returns a non-empty list: a parsed LLM
answer is non-empty by construction, and on an empty parse the three fallback
tiers are attempted in order, the last being non-empty by hypothesis. -/
theorem C3_keywords_nonempty (env : Env) (c : Cache) (query : Str)
    (hmiss : cacheFind c query = none)
    (htok : (pySplitWs (pyLower query)).filter
      (fun w => !(commonWords.contains w) && decide (3 < w.length)) ≠ []) :
    (extractSearchKeywords env c query).1 ≠ [] := by
  unfold extractSearchKeywords
  rw [hmiss]
  simp only
  by_cases hp : parseKeywords (env.llm (keywordsPrompt query)) = []
  · rw [if_pos hp]
    exact fallbackKeywords_ne_nil htok
  · rw [if_neg hp]
    exact hp

/-- Environment whose LLM answers with text containing no marker. -/
def envMarkerless : Env :=
  { llm := fun _ => "tamam".toList, retrieve := fun _ => [],
    semScore := fun _ _ => 0, meta := [], db := fun _ => none }

/-- Witness for C3 at a concrete fresh query. -/
theorem C3_keywords_nonempty_witness :
    (extractSearchKeywords envMarkerless [] ("boşanma tazminatı talebi".toList)).1 ≠ [] :=
  C3_keywords_nonempty envMarkerless [] ("boşanma tazminatı talebi".toList)
    (by decide) (by decide)

/-- Environment whose LLM always answers a well-formed KEYWORDS line. -/
def envKw : Env :=
  { llm := fun _ => "KEYWORDS: nafaka, tazminat".toList, retrieve := fun _ => [],
    semScore := fun _ _ => 0, meta := [], db := fun _ => none }

/-- Cache entry for a query whose intent — but not keywords — was computed. -/
def intentOnlyEntry : AnalysisEntry :=
  { keywords := none, case_type := some ("Aile".toList), main_topic := some [],
    search_terms := some [], is_criminal := some false }

def cacheIntentOnly : Cache := [(("nafaka".toList), intentOnlyEntry)]

/-- C4 counterexample: with only the intent fields cached for the query,
`_extract_search_keywords` returns the default empty list without computing,
although a fresh computation with the same LLM yields a non-empty list. -/
theorem C4_counterexample :
    (extractSearchKeywords envKw cacheIntentOnly ("nafaka".toList)).1 = []
    ∧ (extractSearchKeywords envKw [] ("nafaka".toList)).1 =
        (["nafaka", "tazminat"]).map (fun s => s.toList) := by
  constructor
  · decide
  · decide

/-- C4 amended: both operations consult the AnalysisCache keyed by the exact
raw query.  `extractIntent` short-circuits only when the intent field
("case_type") is cached and computes its own intent when only keywords are
cached; `extractKeywords` short-circuits on mere presence of the query key,
returning the cached keywords when present but the default empty list when
only the intent fields have been cached for that query. -/
theorem C4_cache_consultation (env : Env) (c : Cache) (q : Str) (e : AnalysisEntry) :
    (cacheFind c q = some e → extractSearchKeywords env c q = (e.keywords.getD [], c))
    ∧ (cacheFind c q = some e → e.case_type.isSome = true →
        extractCaseIntent env c q = (entryIntent e, c))
    ∧ (cacheFind c q = some e → e.case_type = none →
        (extractCaseIntent env c q).1 = parseIntent (env.llm (intentPrompt q))) := by
  refine ⟨fun h => ?_, fun h hct => ?_, fun h hct => ?_⟩
  · unfold extractSearchKeywords
    rw [h]
  · have hhit : intentCacheHit c q = true := by
      unfold intentCacheHit
      rw [h]
      exact hct
    unfold extractCaseIntent
    rw [if_pos hhit, h]
    rfl
  · have hhit : intentCacheHit c q = false := by
      unfold intentCacheHit
      rw [h]
      simp [hct]
    unfold extractCaseIntent
    rw [if_neg (by simp [hhit])]

/-- Witness for the amended claim C4: the keywords side short-circuits on an
intent-only entry and yields the default. -/
theorem C4_cache_consultation_witness :
    extractSearchKeywords envKw cacheIntentOnly ("nafaka".toList) =
      (intentOnlyEntry.keywords.getD [], cacheIntentOnly) :=
  (C4_cache_consultation envKw cacheIntentOnly ("nafaka".toList) intentOnlyEntry).1
    (by decide)

theorem parseIntentLine_id_of_no_marker (it : CaseIntent) (line : Str)
    (h1 : pyIn davaMarker line = false)
    (h2 : pyIn anaMarker line = false)
    (h3 : pyIn aramaMarker line = false) :
    parseIntentLine it line = it := by
  simp [parseIntentLine, h1, h2, h3]

theorem parseIntent_default_of_no_marker {response : Str}
    (h : ∀ line ∈ pySplit ("\n".toList) response,
      pyIn davaMarker line = false ∧ pyIn anaMarker line = false
      ∧ pyIn aramaMarker line = false) :
    parseIntent response = defaultIntent := by
  unfold parseIntent
  generalize hl : pySplit ("\n".toList) response = lines at h
  clear hl
  induction lines with
  | nil => rfl
  | cons a l ih =>
    have ha := h a (by simp)
    rw [List.foldl_cons, parseIntentLine_id_of_no_marker _ _ ha.1 ha.2.1 ha.2.2]
    exact ih fun line hline => h line (by simp [hline])

/-- C10 counterexample: on a markerless LLM response, intent extraction does
return the default intent with empty search terms, but the resulting enhanced
query is the raw query followed by a trailing space, not the raw query. -/
theorem C10_counterexample :
    (extractCaseIntent envMarkerless [] ("nafaka davası".toList)).1 = defaultIntent
    ∧ enhancedQuery ("nafaka davası".toList)
        (extractCaseIntent envMarkerless [] ("nafaka davası".toList)).1.search_terms
      ≠ ("nafaka davası".toList) := by
  constructor
  · decide
  · decide

/-- C10 amended: when the LLM response to the intent prompt is empty or
contains none of the marker lines, intent extraction returns the default
intent without raising — case type "Genel", empty topic, `is_criminal` false
and an empty `search_terms` list (the first-five-tokens fallback fires only on
a parsing exception, which cannot occur) — so the enhanced query degenerates
to the raw query followed by a single trailing space, the space-join of zero
search terms. -/
theorem C10_markerless_default_intent (env : Env) (c : Cache) (q : Str)
    (hmiss : intentCacheHit c q = false)
    (h : ∀ line ∈ pySplit ("\n".toList) (env.llm (intentPrompt q)),
      pyIn davaMarker line = false ∧ pyIn anaMarker line = false
      ∧ pyIn aramaMarker line = false) :
    (extractCaseIntent env c q).1 = defaultIntent
    ∧ enhancedQuery q (extractCaseIntent env c q).1.search_terms = q ++ (" ".toList) := by
  have hit : (extractCaseIntent env c q).1 = defaultIntent := by
    unfold extractCaseIntent
    rw [if_neg (by simp [hmiss])]
    exact parseIntent_default_of_no_marker h
  refine ⟨hit, ?_⟩
  rw [hit]
  show enhancedQuery q [] = q ++ (" ".toList)
  simp [enhancedQuery, List.intercalate]

/-- Witness for the amended claim C10 on a concrete markerless response. -/
theorem C10_markerless_default_intent_witness :
    (extractCaseIntent envMarkerless [] ("dava".toList)).1 = defaultIntent
    ∧ enhancedQuery ("dava".toList)
        (extractCaseIntent envMarkerless [] ("dava".toList)).1.search_terms
      = ("dava".toList) ++ (" ".toList) :=
  C10_markerless_default_intent envMarkerless [] ("dava".toList) (by decide) (by decide)

/-- One candidate result dictionary (lines 301-313). -/
structure Candidate where
  id : Str
  score : ℚ
  semantic_score : ℚ
  keyword_score : ℚ
  benefit_score : ℚ
  snippet : Str
  daire : Str
  esas : Str
  karar : Str
  tarih : Str
  raw_text : Str
deriving DecidableEq

/-- Score fusion and clamp (lines 297-299): 35% semantic + 35% keyword + 30%
benefit, clamped into [0.60, 0.95]. -/
def fuseScore (semantic keyword benefit : ℚ) : ℚ :=
  max 0.60 (min (semantic * 0.35 + keyword * 0.35 + benefit * 0.30) 0.95)

/-- Decision text selection (line 291): the full text when truthy, else the
chunk snippet. -/
def candidateText (row : DbRow) (m : MetaEntry) : Str :=
  match row.raw_text with
  | some t => if t = [] then m.snippet else t
  | none => m.snippet

/-- The result dictionary appended per candidate (lines 301-313). -/
def mkCandidate (m : MetaEntry) (row : DbRow) (semantic kscore bscore : ℚ) : Candidate :=
  { id := m.id, score := fuseScore semantic kscore bscore, semantic_score := semantic,
    keyword_score := kscore, benefit_score := bscore, snippet := m.snippet,
    daire := pyOr row.daire ("Bilinmiyor".toList),
    esas := pyOr row.esas ("Bilinmiyor".toList),
    karar := pyOr row.karar ("Bilinmiyor".toList),
    tarih := pyOr row.tarih ("Bilinmiyor".toList),
    raw_text := pyOr row.raw_text [] }

/-- Assembly of one candidate from one retrieved identifier (loop body of
`_search_beneficial_decisions`, lines 268-316).  `none` models each
`continue`: the `idx >= len(self.meta)` guard, the `IndexError` of a negative
identifier falling off the front of the list, a missing store row, and the
`TypeError` on a NULL court string. -/
def buildCandidate (env : Env) (eq : Str) (keywords : List Str) (i : Nat) (idx : Int) :
    Option Candidate :=
  if (env.meta.length : Int) ≤ idx then none
  else
    match pyIndex env.meta idx with
    | none => none
    | some m =>
      match env.db m.id with
      | none => none
      | some row =>
        match calculateBenefitScore (candidateText row m) row.daire with
        | none => none
        | some bscore =>
          some (mkCandidate m row (env.semScore eq i)
            (keywordMatchScore (candidateText row m) keywords) bscore)

/-- Model of `_search_beneficial_decisions` (lines 253-318). -/
def searchBeneficialDecisions (env : Env) (c : Cache) (query : Str) (intent : CaseIntent) :
    List Candidate × Cache :=
  let kc := extractSearchKeywords env c query
  let eq := enhancedQuery query intent.search_terms
  ((env.retrieve eq).enum.filterMap (fun p => buildCandidate env eq kc.1 p.1 p.2), kc.2)

/-- Descending fused-score order used by the ranker. -/
def scoreGe (a b : Candidate) : Prop := b.score ≤ a.score

instance : DecidableRel scoreGe := fun a b => inferInstanceAs (Decidable (b.score ≤ a.score))

instance : IsTotal Candidate scoreGe := ⟨fun a b => le_total b.score a.score⟩

instance : IsTrans Candidate scoreGe := ⟨fun _ _ _ h1 h2 => le_trans h2 h1⟩

/-- Sort of the ranker (line 397).  The Python stable in-place sort with reversal
is a stable descending sort; every stable sort under the same total preorder
produces the same list, so it is modelled by stable insertion sort under
`scoreGe`. -/
def sortCandidates (l : List Candidate) : List Candidate := l.insertionSort scoreGe

/-- Decimal digits of a natural number. -/
def natStr (n : Nat) : Str := Nat.toDigits 10 n

/-- Nearest integer with ties to even (the rounding used by Python float
formatting), on exact rationals. -/
def roundHalfEven (x : ℚ) : Int :=
  let f : Int := Int.fdiv x.num (x.den : Int)
  let r : ℚ := x - (f : ℚ)
  if r < 1/2 then f
  else if 1/2 < r then f + 1
  else if f % 2 = 0 then f else f + 1

/-- Python format `{:.1%}`: the value as a percentage with one decimal digit.
(CPython formats the IEEE double; the model rounds the exact rational.) -/
def formatPercent1 (x : ℚ) : Str :=
  let n := roundHalfEven (x * 1000)
  let m := n.natAbs
  (if n < 0 then "-".toList else []) ++ natStr (m / 10) ++ (".".toList)
    ++ natStr (m % 10) ++ ("%".toList)

/-- One block of `decisions_text` (lines 328-332). -/
def decisionLine (i : Nat) (r : Candidate) : Str :=
  ("\n".toList) ++ natStr i ++ (". ".toList) ++ r.daire ++ (" - ".toList) ++ r.esas
  ++ ("/".toList) ++ r.karar ++ (" (".toList) ++ r.tarih ++ (")\n   Benzerlik: ".toList)
  ++ formatPercent1 r.semantic_score ++ (" | Keyword: ".toList)
  ++ formatPercent1 r.keyword_score ++ (" | Fayda: ".toList)
  ++ formatPercent1 r.benefit_score ++ ("\n   Özet: ".toList)
  ++ r.snippet.take 150 ++ ("...\n".toList)

/-- The `decisions_text` accumulation (lines 326-332), `enumerate(..., 1)`. -/
def decisionsText (top3 : List Candidate) : Str :=
  top3.enum.foldl (fun acc p => acc ++ decisionLine (p.1 + 1) p.2) []

/-- Prompt of `_explain_top_3_benefits` (lines 334-353). -/
def explanationPrompt (query : Str) (top3 : List Candidate) : Str :=
  ("\nSen deneyimli bir Türk avukatısın. Bu 3 emsal kararı analiz et:\n\nDAVA: \"".toList)
  ++ query ++ ("\"\n\nEMSAL KARARLAR:\n".toList) ++ decisionsText top3 ++
  ("\n\nHer karar için şunları açıkla:\n1. Bu karar nasıl emsal olarak kullanılabilir?\n2. Dilekçede hangi argümanları destekler?\n3. Dikkat edilmesi gereken noktalar nelerdir?\n\nSonra genel değerlendirme:\n- Bu kararların gücü nedir?\n- Hangi noktalara odaklanmalı?\n- Tahmini başarı şansı nedir?\n\nSADECE TÜRKÇE YANITLA. Kısa ve öz ol.\n".toList)

/-- One block of the fallback explanation (lines 366-370). -/
def fallbackLine (i : Nat) (r : Candidate) : Str :=
  natStr i ++ (". **".toList) ++ r.daire ++ ("** (".toList) ++ r.esas ++ ("/".toList)
  ++ r.karar ++ ("):\n   - Benzerlik: ".toList) ++ formatPercent1 r.semantic_score
  ++ (" | Keyword: ".toList) ++ formatPercent1 r.keyword_score
  ++ (" | Fayda: ".toList) ++ formatPercent1 r.benefit_score
  ++ ("\n   - Bu karar, sorunuzla ilgili hukuki prensipleri içermektedir.\n   - Dilekçenizde emsal olarak kullanılabilir.\n\n".toList)

/-- Model of `_fallback_explanation` (lines 362-373). -/
def fallbackExplanation (top3 : List Candidate) : Str :=
  ("**En İyi 3 Emsal Kararın Değerlendirmesi:**\n\n".toList)
  ++ top3.enum.foldl (fun acc p => acc ++ fallbackLine (p.1 + 1) p.2) []
  ++ ("**Genel Değerlendirme:** Bu kararlar, sorunuzla ilgili en uygun ve faydalı hukuki emsalleri içermektedir.".toList)

/-- Fixed insufficient-precedents message (line 323). -/
def insufficientMsg : Str := "Yeterli emsal karar bulunamadı.".toList

/-- Model of `_explain_top_3_benefits` (lines 320-360). -/
def explainTop3Benefits (env : Env) (query : Str) (top3 : List Candidate) : Str :=
  if top3.length < 3 then insufficientMsg
  else
    if env.llm (explanationPrompt query top3) = [] then fallbackExplanation top3
    else env.llm (explanationPrompt query top3)

/-- Result dictionary of `search_beneficial_precedents` (lines 405-411). -/
structure RankedResult where
  top_20_results : List Candidate
  top_3_results : List Candidate
  explanation : Str
  intent : CaseIntent
  total_found : Nat
deriving DecidableEq

/-- Candidate pool assembled inside one `search_beneficial_precedents` call,
which always starts from a cleared cache. -/
def pipelineCandidates (env : Env) (query : Str) : List Candidate :=
  let c1 := (extractSearchKeywords env [] query).2
  let ic := extractCaseIntent env c1 query
  (searchBeneficialDecisions env ic.2 query ic.1).1

/-- Model of `search_beneficial_precedents` (lines 375-411), threading the
cache state through the call.  The incoming cache is discarded at once
(line 380: `self._cached_analyses = {}`); the keyword extraction of line 383
runs first and populates the fresh cache. -/
def searchBeneficialPrecedents (env : Env) (_c0 : Cache) (case_description : Str) :
    RankedResult × Cache :=
  let c1 := (extractSearchKeywords env [] case_description).2
  let ic := extractCaseIntent env c1 case_description
  let rc := searchBeneficialDecisions env ic.2 case_description ic.1
  let sorted := sortCandidates rc.1
  ({ top_20_results := sorted.take 20, top_3_results := sorted.take 3,
     explanation := explainTop3Benefits env case_description (sorted.take 3),
     intent := ic.1, total_found := rc.1.length }, rc.2)

theorem buildCandidate_score {env : Env} {eq : Str} {kws : List Str} {i : Nat}
    {idx : Int} {cand : Candidate} (h : buildCandidate env eq kws i idx = some cand) :
    cand.score = fuseScore cand.semantic_score cand.keyword_score cand.benefit_score := by
  unfold buildCandidate at h
  split at h
  · exact absurd h (by simp)
  · split at h
    · exact absurd h (by simp)
    · split at h
      · exact absurd h (by simp)
      · split at h
        · exact absurd h (by simp)
        · rw [← Option.some_inj.mp h]
          rfl

theorem fuseScore_spec (s k b : ℚ) :
    fuseScore s k b = max 0.60 (min (0.35 * s + 0.35 * k + 0.30 * b) 0.95)
    ∧ 0.60 ≤ fuseScore s k b ∧ fuseScore s k b ≤ 0.95 := by
  refine ⟨?_, le_max_left _ _, ?_⟩
  · unfold fuseScore
    rw [mul_comm s (0.35 : ℚ), mul_comm k (0.35 : ℚ), mul_comm b (0.30 : ℚ)]
  · unfold fuseScore
    apply max_le
    · norm_num
    · exact min_le_right _ _

/-- C1: every candidate assembled by the search carries as fused score
0.35·semantic + 0.35·keyword + 0.30·benefit clamped into [0.60, 0.95], and
hence every fused score lies in [0.60, 0.95]. -/
theorem C1_fused_score_clamped (env : Env) (c : Cache) (query : Str)
    (intent : CaseIntent) (cand : Candidate)
    (h : cand ∈ (searchBeneficialDecisions env c query intent).1) :
    cand.score = max 0.60 (min (0.35 * cand.semantic_score + 0.35 * cand.keyword_score
        + 0.30 * cand.benefit_score) 0.95)
    ∧ 0.60 ≤ cand.score ∧ cand.score ≤ 0.95 := by
  have h' : cand ∈ (env.retrieve (enhancedQuery query intent.search_terms)).enum.filterMap
      (fun p => buildCandidate env (enhancedQuery query intent.search_terms)
        (extractSearchKeywords env c query).1 p.1 p.2) := h
  obtain ⟨p, _, hb⟩ := List.mem_filterMap.mp h'
  obtain ⟨heq, hb1, hb2⟩ :=
    fuseScore_spec cand.semantic_score cand.keyword_score cand.benefit_score
  rw [buildCandidate_score hb]
  exact ⟨heq, hb1, hb2⟩

/-- Store row used by concrete witness environments. -/
def rowW : DbRow :=
  { daire := some ("Ankara 1. Asliye Hukuk Mahkemesi".toList),
    esas := some ("2020/1".toList), karar := some ("2021/2".toList),
    tarih := some ("2021-05-05".toList), raw_text := some ("karar metni".toList) }

/-- Environment with a single retrievable candidate. -/
def envOne : Env :=
  { llm := fun _ => [], retrieve := fun _ => [0], semScore := fun _ _ => 0.5,
    meta := [{ id := "D1".toList, snippet := "ozet".toList }],
    db := fun _ => some rowW }

/-- The candidate `envOne` produces for the empty query. -/
def candW : Candidate :=
  { id := "D1".toList, score := 0.6, semantic_score := 0.5, keyword_score := 0,
    benefit_score := 0, snippet := "ozet".toList,
    daire := "Ankara 1. Asliye Hukuk Mahkemesi".toList, esas := "2020/1".toList,
    karar := "2021/2".toList, tarih := "2021-05-05".toList,
    raw_text := "karar metni".toList }

/-- Witness for C1 on a concrete retrieved candidate. -/
theorem C1_fused_score_clamped_witness :
    candW.score = max 0.60 (min (0.35 * candW.semantic_score + 0.35 * candW.keyword_score
        + 0.30 * candW.benefit_score) 0.95)
    ∧ 0.60 ≤ candW.score ∧ candW.score ≤ 0.95 :=
  C1_fused_score_clamped envOne [] [] defaultIntent candW (by with_unfolding_all decide)

/-- C2: in every RankedResult, the top-3 list is the 3-prefix of the top-20
list, the top-20 list is the 20-prefix of the fully ranked candidate list,
that ranked list is sorted by fused score in descending (non-strict) order,
and the sort is stable: candidates in retrieval order whose scores are
non-ascending (in particular, ties) keep their relative order. -/
theorem C2_ranking_invariants (env : Env) (c0 : Cache) (query : Str) :
    (searchBeneficialPrecedents env c0 query).1.top_3_results
      = (searchBeneficialPrecedents env c0 query).1.top_20_results.take 3
    ∧ (searchBeneficialPrecedents env c0 query).1.top_20_results
      = (sortCandidates (pipelineCandidates env query)).take 20
    ∧ (sortCandidates (pipelineCandidates env query)).Pairwise scoreGe
    ∧ ∀ a b : Candidate, List.Sublist [a, b] (pipelineCandidates env query) → b.score ≤ a.score →
        List.Sublist [a, b] (sortCandidates (pipelineCandidates env query)) := by
  refine ⟨?_, rfl, ?_, ?_⟩
  · show (sortCandidates (pipelineCandidates env query)).take 3
      = ((sortCandidates (pipelineCandidates env query)).take 20).take 3
    rw [List.take_take]
    norm_num
  · exact List.sorted_insertionSort scoreGe _
  · intro a b hsub hscore
    exact List.pair_sublist_insertionSort hscore hsub

/-- Store row with an empty (falsy) court string and NULL remaining fields. -/
def rowEmpty : DbRow :=
  { daire := some [], esas := none, karar := none, tarih := none, raw_text := none }

/-- Environment retrieving two candidates with tied fused scores. -/
def envTwo : Env :=
  { llm := fun _ => [], retrieve := fun _ => [0, 1], semScore := fun _ _ => 0,
    meta := [{ id := "D1".toList, snippet := [] }, { id := "D2".toList, snippet := [] }],
    db := fun _ => some rowEmpty }

/-- First tied candidate produced by `envTwo`. -/
def candA : Candidate :=
  { id := "D1".toList, score := 0.6, semantic_score := 0, keyword_score := 0,
    benefit_score := 0, snippet := [], daire := "Bilinmiyor".toList,
    esas := "Bilinmiyor".toList, karar := "Bilinmiyor".toList,
    tarih := "Bilinmiyor".toList, raw_text := [] }

/-- Second tied candidate produced by `envTwo`. -/
def candB : Candidate :=
  { id := "D2".toList, score := 0.6, semantic_score := 0, keyword_score := 0,
    benefit_score := 0, snippet := [], daire := "Bilinmiyor".toList,
    esas := "Bilinmiyor".toList, karar := "Bilinmiyor".toList,
    tarih := "Bilinmiyor".toList, raw_text := [] }

/-- Witness for C2: two tied candidates keep their retrieval order. -/
theorem C2_ranking_invariants_witness :
    List.Sublist [candA, candB] (sortCandidates (pipelineCandidates envTwo [])) :=
  (C2_ranking_invariants envTwo [] []).2.2.2 candA candB
    (by
      rw [show pipelineCandidates envTwo [] = [candA, candB]
        from by with_unfolding_all rfl])
    (by with_unfolding_all decide)

theorem fallbackExplanation_ne_nil (top3 : List Candidate) :
    fallbackExplanation top3 ≠ [] := by
  unfold fallbackExplanation
  simp [List.append_eq_nil]

/-- C5: given the ordered top-3 list, the explanation operation returns the
fixed insufficient-precedents message whenever the list has fewer than three
entries; with exactly three entries it returns the LLM output when that is
non-empty, the deterministic templated fallback otherwise, and in either case
a non-empty text. -/
theorem C5_explanation (env : Env) (query : Str) (top3 : List Candidate) :
    (top3.length < 3 → explainTop3Benefits env query top3 = insufficientMsg)
    ∧ (top3.length = 3 →
        (env.llm (explanationPrompt query top3) ≠ [] →
          explainTop3Benefits env query top3 = env.llm (explanationPrompt query top3))
        ∧ (env.llm (explanationPrompt query top3) = [] →
          explainTop3Benefits env query top3 = fallbackExplanation top3)
        ∧ explainTop3Benefits env query top3 ≠ []) := by
  constructor
  · intro h
    unfold explainTop3Benefits
    rw [if_pos h]
  · intro h3
    have hnot : ¬ top3.length < 3 := by omega
    unfold explainTop3Benefits
    rw [if_neg hnot]
    refine ⟨fun hne => ?_, fun he => ?_, ?_⟩
    · rw [if_neg hne]
    · rw [if_pos he]
    · by_cases he : env.llm (explanationPrompt query top3) = []
      · rw [if_pos he]
        exact fallbackExplanation_ne_nil top3
      · rw [if_neg he]
        exact he

/-- Witness for C5: three candidates and a silent LLM yield the templated
fallback. -/
theorem C5_explanation_witness :
    explainTop3Benefits envOne [] [candA, candA, candA]
      = fallbackExplanation [candA, candA, candA] :=
  ((C5_explanation envOne [] [candA, candA, candA]).2 (by decide)).2.1 rfl

/-- C6: the AnalysisCache is discarded at the very start of every
`search_beneficial_precedents` call, before any keyword or intent
computation, so the result and final cache of the call never depend on cache state
left behind by an earlier call — no cross-query staleness. -/
theorem C6_cache_cleared (env : Env) (c1 c2 : Cache) (query : Str) :
    searchBeneficialPrecedents env c1 query = searchBeneficialPrecedents env c2 query := rfl

/-- Store row used by the C9 failing input. -/
def rowAnkara : DbRow :=
  { daire := some ("Ankara Mahkemesi".toList), esas := none, karar := none,
    tarih := none, raw_text := none }

/-- Environment whose index search returns the FAISS sentinel identifier −1
over a one-entry metadata sequence. -/
def envNeg : Env :=
  { llm := fun _ => [], retrieve := fun _ => [-1], semScore := fun _ _ => 0,
    meta := [{ id := "K1".toList, snippet := "ozet".toList }],
    db := fun i => if i = ("K1".toList) then some rowAnkara else none }

/-- C9, evaluated at the failing input: the sentinel identifier −1 passes the
`idx >= len(self.meta)` guard and — by Python negative indexing — reads the
LAST metadata entry, fabricating a candidate instead of being dropped; the
guard does work for identifiers ≥ len(meta). -/
theorem C9_sentinel_not_dropped :
    (searchBeneficialDecisions envNeg [] ("dava".toList) defaultIntent).1
      = [{ id := "K1".toList, score := 0.6, semantic_score := 0, keyword_score := 0,
           benefit_score := 0, snippet := "ozet".toList,
           daire := "Ankara Mahkemesi".toList,
           esas := "Bilinmiyor".toList, karar := "Bilinmiyor".toList,
           tarih := "Bilinmiyor".toList, raw_text := [] }]
    ∧ (searchBeneficialDecisions
        { envNeg with retrieve := fun _ => [1] } [] ("dava".toList) defaultIntent).1
      = [] := by
  constructor
  · with_unfolding_all decide
  · with_unfolding_all decide

/-- Witness for C8 on a concrete non-empty keyword list. -/
theorem C8_keyword_match_score_witness :
    keywordMatchScore ("boşanma kararı".toList) ((["boşanma"]).map fun s => s.toList) =
      (((((["boşanma"]).map fun s => s.toList).countP
          fun k => pyIn (pyLower k) (pyLower ("boşanma kararı".toList)) : Nat) : ℚ)
        / ((((["boşanma"]).map fun s => s.toList).length : Nat) : ℚ))
    ∧ 0 ≤ keywordMatchScore ("boşanma kararı".toList) ((["boşanma"]).map fun s => s.toList)
    ∧ keywordMatchScore ("boşanma kararı".toList) ((["boşanma"]).map fun s => s.toList) ≤ 1 :=
  C8_keyword_match_score.2.1 ("boşanma kararı".toList)
    ((["boşanma"]).map fun s => s.toList) (by decide)

end Davadostum
